import Mathlib

/-!
Verification development for the ikc-bulk-guru batch scripts.

The Python sources under `src/` are shallowly embedded as executable Lean
definitions: strings are Lean `String`s (whose `data` field is the list of
characters), Python dicts become association lists with Python's
insert-or-overwrite assignment, JSON-ish values become an inductive `Json`
type, and every network interaction is modelled by an explicit environment
function plus a trace of emitted API calls.
-/

namespace BulkGuru

/-! ## Python string primitives

Models of the Python `str` methods the scripts use (`strip`, `replace`,
`split`, `lower`, `endswith`), operating on the character list underlying a
Lean `String`. -/

/-- The characters Python's `str.strip()` removes by default. -/
def pyWhitespace (c : Char) : Bool :=
  c = ' ' || c = '\t' || c = '\n' || c = '\r' || c = '\x0b' || c = '\x0c'

/-- `str.strip()` on a character list: drop leading and trailing whitespace. -/
def pyStripList (l : List Char) : List Char :=
  ((l.dropWhile pyWhitespace).reverse.dropWhile pyWhitespace).reverse

/-- Python `s.strip()`. -/
def pyStrip (s : String) : String := ⟨pyStripList s.data⟩

/-- Python `s.replace(a, b)` where `a` and `b` are single characters
(the only character-level form the scripts use). -/
def pyReplaceChar (a b : Char) (s : String) : String :=
  ⟨s.data.map (fun c => if c = a then b else c)⟩

/-- Helper of `pySplitChar`: split a character list at a separator,
Python-style (`"".split(',') = [""]`, empty segments kept). -/
def pySplitCharAux (sep : Char) : List Char → List Char → List (List Char)
  | [], cur => [cur.reverse]
  | c :: rest, cur =>
      if c = sep then cur.reverse :: pySplitCharAux sep rest []
      else pySplitCharAux sep rest (c :: cur)

/-- Python `s.split(sep)` for a single-character separator. -/
def pySplitChar (sep : Char) (s : String) : List String :=
  (pySplitCharAux sep s.data []).map (fun l => ⟨l⟩)

/-- ASCII lowering of one character (model of Python `str.lower` on the
ASCII range used by the scripts' dimension names). -/
def pyLowerChar (c : Char) : Char :=
  if 'A' ≤ c ∧ c ≤ 'Z' then Char.ofNat (c.toNat + 32) else c

/-- Python `s.lower()`. -/
def pyLower (s : String) : String := ⟨s.data.map pyLowerChar⟩

/-- Helper of `pyReplace`: Python's left-to-right non-overlapping substring
replacement on character lists. Each step consumes at least one input
character, so fuel equal to the input length (as `pyReplace` supplies)
always reaches the end of the scan. -/
def pyReplaceAux (pat repl : List Char) : Nat → List Char → List Char
  | 0, l => l
  | _ + 1, [] => []
  | fuel + 1, c :: rest =>
      if pat ≠ [] ∧ pat.isPrefixOf (c :: rest) then
        repl ++ pyReplaceAux pat repl fuel ((c :: rest).drop pat.length)
      else
        c :: pyReplaceAux pat repl fuel rest

/-- Python `s.replace(pat, repl)` for a multi-character pattern. -/
def pyReplace (s pat repl : String) : String :=
  ⟨pyReplaceAux pat.data repl.data s.data.length s.data⟩

/-- Python `s.endswith(suffix)`. -/
def pyEndsWith (s suffix : String) : Bool :=
  suffix.data.isSuffixOf s.data

/-! ## `bulk_dq_rules.parse_bound_expressions`

Direct embedding of `parse_bound_expressions` (src/bulk_dq_rules.py,
lines 179–195): strip, normalize the `+`/`|`/`;` separators to commas,
split on commas, strip each part and keep the non-empty ones. -/

def parse_bound_expressions (bound_expr : String) : List String :=
  let expr := pyStrip bound_expr
  if expr = "" then []
  else
    let expr2 := pyReplaceChar ';' ',' (pyReplaceChar '|' ',' (pyReplaceChar '+' ',' expr))
    ((pySplitChar ',' expr2).map pyStrip).filter (fun col => col ≠ "")

/-! ## JSON values and `export_artifacts.flatten_record`

A JSON-ish value type for the payloads the scripts pass around, with a
model of Python's `str()`/`repr()` stringification, a model of Python dict
assignment on association lists, and the flattening of
`flatten_record` (src/export_artifacts.py, lines 62–86). -/

inductive Json where
  | null : Json
  | bool : Bool → Json
  | num : Int → Json
  | str : String → Json
  | arr : List Json → Json
  | obj : List (String × Json) → Json

mutual

/-- Python `repr()` on JSON-ish values (string quoting unescaped, which is
all the scripts' data needs). -/
def pyRepr : Json → String
  | .null => "None"
  | .bool b => if b then "True" else "False"
  | .num n => toString n
  | .str s => "'" ++ s ++ "'"
  | .arr xs => "[" ++ pyReprList xs ++ "]"
  | .obj kvs => "\x7b" ++ pyReprObj kvs ++ "\x7d"

/-- Comma-joined `repr`s of a list's elements. -/
def pyReprList : List Json → String
  | [] => ""
  | [x] => pyRepr x
  | x :: y :: xs => pyRepr x ++ ", " ++ pyReprList (y :: xs)

/-- Comma-joined `repr`s of a dict's key/value pairs. -/
def pyReprObj : List (String × Json) → String
  | [] => ""
  | [(k, v)] => "'" ++ k ++ "': " ++ pyRepr v
  | (k, v) :: p :: rest => "'" ++ k ++ "': " ++ pyRepr v ++ ", " ++ pyReprObj (p :: rest)

end

/-- Python `str()` on JSON-ish values: a string is itself, anything else
prints as its `repr`. -/
def pyStr : Json → String
  | .str s => s
  | v => pyRepr v

/-- Python dict assignment `d[k] = v` on an association list: overwrite in
place when the key is present, append otherwise. -/
def dictAssign (m : List (String × String)) (k v : String) : List (String × String) :=
  if m.any (fun p => p.1 = k) then
    m.map (fun p => if p.1 = k then (k, v) else p)
  else
    m ++ [(k, v)]

mutual

/-- The inner `_flatten(obj, prefix)` of `flatten_record`, accumulating
into the `flattened` dict. -/
def flattenAux : Json → String → List (String × String) → List (String × String)
  | .obj kvs, pfx, acc => flattenFields kvs pfx acc
  | .arr [], pfx, acc => dictAssign acc pfx ""
  | .arr [x], pfx, acc => flattenAux x pfx acc
  | .arr (x :: y :: xs), pfx, acc =>
      dictAssign acc pfx (String.intercalate "; " ((x :: y :: xs).map pyStr))
  | .null, pfx, acc => dictAssign acc pfx ""
  | .bool b, pfx, acc => dictAssign acc pfx (pyStr (.bool b))
  | .num n, pfx, acc => dictAssign acc pfx (pyStr (.num n))
  | .str s, pfx, acc => dictAssign acc pfx s

/-- The dict branch of `_flatten`: iterate the fields in order, skipping
`_score`, dot-joining the key onto a non-empty prefix. -/
def flattenFields : List (String × Json) → String → List (String × String) → List (String × String)
  | [], _, acc => acc
  | (k, v) :: rest, pfx, acc =>
      if k = "_score" then flattenFields rest pfx acc
      else flattenFields rest pfx (flattenAux v (if pfx = "" then k else pfx ++ "." ++ k) acc)

end

/-- `flatten_record(record)`: flatten from an empty prefix and dict. -/
def flatten_record (record : Json) : List (String × String) :=
  flattenAux record "" []

/-! ## `bulk_assign_project`: artifact cache, load, and lookup

Embedding of the module-level `_artifact_cache`, `_load_artifacts`
(src/bulk_assign_project.py, lines 17–66) and
`lookup_by_name_and_category` (lines 69–84). An artifact record carries
the four `_source` fields the search request asks for, each optional since
the code reads them with `dict.get` defaults. -/

structure Artifact where
  /-- `metadata.name` -/
  name : Option String := none
  /-- `categories.primary_category_name` -/
  primary_category_name : Option String := none
  /-- `entity.artifacts.global_id` -/
  global_id : Option String := none
  /-- `artifact_id` -/
  artifact_id : Option String := none
deriving DecidableEq, Repr

/-- `artifact.get("metadata", {}).get("name", "")`. -/
def artifactName (a : Artifact) : String := a.name.getD ""

/-- `artifact.get("categories", {}).get("primary_category_name", "")`. -/
def artifactCategory (a : Artifact) : String := a.primary_category_name.getD ""

/-- `artifact.get("entity", {}).get("artifacts", {}).get("global_id", "")`. -/
def artifactGlobalId (a : Artifact) : String := a.global_id.getD ""

/-- `artifact.get("artifact_id", "")`. -/
def artifactArtifactId (a : Artifact) : String := a.artifact_id.getD ""

/-- The scan of `lookup_by_name_and_category` over one type's cached list:
return the identifiers of the first record matching name and primary
category under `==`, else Python `None`. -/
def lookup_by_name_and_category : List Artifact → String → String → Option (String × String)
  | [], _, _ => none
  | a :: rest, nm, cat =>
      if artifactName a = nm ∧ artifactCategory a = cat then
        some (artifactGlobalId a, artifactArtifactId a)
      else
        lookup_by_name_and_category rest nm cat

/-- The `_artifact_cache` dict: artifact type to fetched record list. -/
abbrev ArtifactCache : Type := List (String × List Artifact)

/-- Python dict read `cache.get(t)` / `t in cache`. -/
def cacheFind (cache : ArtifactCache) (t : String) : Option (List Artifact) :=
  (List.find? (fun p => p.1 = t) cache).map (fun p => p.2)

/-- Python dict assignment `cache[t] = l`: overwrite the entry in place
when the key is present (keys are unique in a dict), append otherwise. -/
def cacheSet : ArtifactCache → String → List Artifact → ArtifactCache
  | [], t, l => [(t, l)]
  | p :: rest, t, l => if p.1 = t then (t, l) :: rest else p :: cacheSet rest t l

/-- Outcome of `lookup_by_name_and_category` seen at the cache level:
the subscript `_artifact_cache[artifact_type]` raises `KeyError` when the
type was never loaded; otherwise the scan yields the identifiers or
Python `None`. -/
inductive LookupOutcome where
  | keyError : LookupOutcome
  | found : String → String → LookupOutcome
  | absent : LookupOutcome
deriving DecidableEq, Repr

/-- Whole-cache lookup, including the `KeyError` of an unloaded type. -/
def lookupInCache (cache : ArtifactCache) (t nm cat : String) : LookupOutcome :=
  match cacheFind cache t with
  | none => .keyError
  | some l =>
      match lookup_by_name_and_category l nm cat with
      | some (g, a) => .found g a
      | none => .absent

/-- One page returned by the search API: HTTP status, `rows`, and the
`size` field reporting total hits. -/
structure SearchPage where
  status : Nat
  rows : List Artifact
  size : Nat

/-- The paging `while True:` loop of `_load_artifacts`, indexed by the
`from` offset it sends. `server` maps an offset to the page the remote
returns; the result pairs the accumulated rows with the number of search
requests issued. Fuel only bounds the iteration count; `none` means the
bound was hit before the loop exited. -/
def loadLoop (server : Nat → SearchPage) : Nat → Nat → List Artifact → Nat →
    Option (List Artifact × Nat)
  | 0, _, _, _ => none
  | fuel + 1, offset, acc, calls =>
      let page := server offset
      if page.status ≠ 200 then some (acc, calls + 1)
      else if page.rows = [] then some (acc, calls + 1)
      else if offset + page.rows.length ≥ page.size then some (acc ++ page.rows, calls + 1)
      else loadLoop server fuel (offset + 10000) (acc ++ page.rows) (calls + 1)

/-- `_load_artifacts(client, artifact_type)`: a no-op when the type is
already cached, otherwise run the paging loop from offset 0 and store the
accumulated rows under the type. Returns the new cache with the number of
search requests issued. -/
def load_artifacts (server : Nat → SearchPage) (fuel : Nat) (cache : ArtifactCache)
    (t : String) : Option (ArtifactCache × Nat) :=
  if (cacheFind cache t).isSome then some (cache, 0)
  else
    match loadLoop server fuel 0 [] 0 with
    | some (res, calls) => some (cacheSet cache t res, calls)
    | none => none

/-! ## `bulk_dq_rules`: dimension and definition lookup -/

/-- A data-quality dimension as returned by `/data_quality/v4/dimensions`;
fields optional since the code reads them with `dict.get`. -/
structure Dimension where
  id : Option String := none
  name : Option String := none
deriving DecidableEq, Repr

/-- `get_dimension_by_name` (src/bulk_dq_rules.py, lines 52–63) over the
cached dimension list: first dimension whose lowered name equals the
lowered argument. -/
def get_dimension_by_name (dims : List Dimension) (dimension_name : String) :
    Option Dimension :=
  List.find? (fun d => pyLower (d.name.getD "") = pyLower dimension_name) dims

/-- `get_dimension_id_by_name` (lines 66–72): `dimension.get("id")` of the
match, Python `None` otherwise. -/
def get_dimension_id_by_name (dims : List Dimension) (dimension_name : String) :
    Option String :=
  (get_dimension_by_name dims dimension_name).bind (fun d => d.id)

/-- A data-quality definition as cached by `get_all_definitions`. -/
structure Definition where
  id : Option String := none
  name : Option String := none
deriving DecidableEq, Repr

/-- `get_definition_by_name` (lines 124–135): first cached definition with
exactly (case-sensitively) the given name. -/
def get_definition_by_name (defs : List Definition) (definition_name : String) :
    Option Definition :=
  List.find? (fun d => d.name.getD "" = definition_name) defs

/-! ## `bulk_assign_project.updateColumnInfoBulk`: patch-operation shapes

`main` builds `column_data` as a dict with at most the four keys
`description`, `column_terms`, `column_classifications`, `data_class`, in
that insertion order; `updateColumnInfoBulk` (src/bulk_assign_project.py,
lines 168–248) probes the asset's structure and emits JSON-patch
operations accordingly. The probe results enter here as booleans; the
trace model below shows where the probes happen. -/

structure ColumnData where
  description : Option Json := none
  column_terms : Option Json := none
  column_classifications : Option Json := none
  data_class : Option Json := none

/-- The `column_data` dict as a JSON object, fields in `main`'s insertion
order. -/
def columnDataJson (cd : ColumnData) : Json :=
  .obj ((cd.description.map (fun d => ("description", d))).toList ++
        (cd.column_terms.map (fun t => ("column_terms", t))).toList ++
        (cd.column_classifications.map (fun c => ("column_classifications", c))).toList ++
        (cd.data_class.map (fun d => ("data_class", d))).toList)

/-- Python truthiness of the `column_data` dict (`if column_data:`). -/
def columnDataNonempty (cd : ColumnData) : Bool :=
  cd.description.isSome || cd.column_terms.isSome ||
  cd.column_classifications.isSome || cd.data_class.isSome

/-- One JSON-patch operation of the bulk-patch payload. -/
structure PatchOp where
  op : String
  path : String
  value : Json

/-- The `operations` list `updateColumnInfoBulk` builds, as a function of
the two structure probes (`checkColumnInfoExists`,
`checkSpecificColumnExists`), the column name, and the supplied column
data. -/
def updateColumnInfoBulk_ops (column_info_exists specific_column_exists : Bool)
    (column_name : String) (cd : ColumnData) : List PatchOp :=
  if ¬column_info_exists then
    [⟨"add", "/entity/column_info", .obj [(column_name, columnDataJson cd)]⟩]
  else if ¬specific_column_exists then
    [⟨"add", "/entity/column_info/" ++ column_name, columnDataJson cd⟩]
  else
    (cd.description.map (fun d =>
      (⟨"add", "/entity/column_info/" ++ column_name ++ "/column_description", d⟩ : PatchOp))).toList ++
    (cd.column_terms.map (fun t =>
      (⟨"add", "/entity/column_info/" ++ column_name ++ "/column_terms", t⟩ : PatchOp))).toList ++
    (cd.column_classifications.map (fun c =>
      (⟨"add", "/entity/column_info/" ++ column_name ++ "/column_classifications", c⟩ : PatchOp))).toList ++
    (cd.data_class.map (fun d =>
      (⟨"add", "/entity/column_info/" ++ column_name ++ "/data_class", d⟩ : PatchOp))).toList

/-! ## Remote environment and API-call traces

The per-row processing of `bulk_assign_project.main` and
`bulk_dq_rules.process_dq_rules_csv` is embedded as a function from the
row fields (and an environment describing what the remote would answer)
to the ordered list of API calls the row issues. Mutating calls are the
bulk patch, the definition create and the rule create; everything else is
a read. -/

inductive ApiCall where
  /-- POST `/v2/asset_types/data_asset/search` (a search, not a mutation). -/
  | searchAssets : String → ApiCall
  /-- GET `/v2/assets/{asset_id}`. -/
  | getAsset : String → ApiCall
  /-- POST `/v2/assets/bulk_patch`. -/
  | bulkPatch : String → List PatchOp → ApiCall
  /-- POST `/data_quality/v3/projects/{pid}/definitions`. -/
  | createDefinition : String → ApiCall
  /-- POST `/data_quality/v3/projects/{pid}/rules`. -/
  | createRule : String → ApiCall

/-- Whether a call mutates remote state. -/
def ApiCall.isMutating : ApiCall → Bool
  | .bulkPatch _ _ => true
  | .createDefinition _ => true
  | .createRule _ => true
  | _ => false

/-- What the remote answers during one row: the asset search response
(status, `total_rows`, first `asset_id`), the per-asset GET (status,
`entity.data_asset.columns` names when present, `entity.column_info` keys
when present), and the definition-create outcome (the created `id` when
the POST returns 201 and carries one). -/
structure Env where
  assetSearchStatus : String → Nat
  assetSearchTotal : String → Nat
  assetSearchFirstId : String → String
  assetGetStatus : String → Nat
  assetColumns : String → Option (List String)
  columnInfoKeys : String → Option (List String)
  createDefinitionId : String → Option String

/-- `validateColumn` (src/bulk_assign_project.py lines 290–307 and
src/bulk_dq_rules.py lines 160–177): GET the asset; non-200 or a missing
`entity.data_asset.columns` yields `False`, else membership of the name in
the column set. -/
def validateColumn (env : Env) (asset_id column_name : String) : Bool :=
  if env.assetGetStatus asset_id ≠ 200 then false
  else
    match env.assetColumns asset_id with
    | some cols => cols.contains column_name
    | none => false

/-- `checkColumnInfoExists` (lines 136–149). -/
def checkColumnInfoExists (env : Env) (asset_id : String) : Bool :=
  if env.assetGetStatus asset_id ≠ 200 then false
  else (env.columnInfoKeys asset_id).isSome

/-- `checkSpecificColumnExists` (lines 152–165). -/
def checkSpecificColumnExists (env : Env) (asset_id column_name : String) : Bool :=
  if env.assetGetStatus asset_id ≠ 200 then false
  else ((env.columnInfoKeys asset_id).getD []).contains column_name

/-- `get_term_id` (lines 87–93) against the preloaded glossary-term list. -/
def get_term_id (glossary_terms : List Artifact) (primary_category term_name : String) :
    Option String :=
  (lookup_by_name_and_category glossary_terms term_name primary_category).map
    (fun r => r.1)

/-- `get_classification_id` (lines 96–102): `(artifact_id, global_id)`. -/
def get_classification_id (classifications : List Artifact)
    (primary_category classification_name : String) : Option String × Option String :=
  match lookup_by_name_and_category classifications classification_name primary_category with
  | some r => (some r.2, some r.1)
  | none => (none, none)

/-- `get_data_class_id` (lines 105–111). -/
def get_data_class_id (data_classes : List Artifact)
    (primary_category data_class_name : String) : Option String :=
  (lookup_by_name_and_category data_classes data_class_name primary_category).map
    (fun r => r.1)

/-- Python truthiness of an optional string (`None` and `""` are falsy). -/
def pyTruthy (o : Option String) : Bool := o.getD "" ≠ ""

/-- The `column_data` dict `main` assembles for one row (lines 393–454)
from the preloaded caches: a stripped non-empty description, and each of
term / classification / data class only when both its name and category
cells are non-empty and the cache resolves them to truthy identifiers. -/
def buildColumnData (glossary_terms classifications data_classes : List Artifact)
    (column_description term_name term_category classification_name
     classification_category data_class_name data_class_category : String) : ColumnData :=
  let d0 : ColumnData := {}
  let d1 :=
    if pyStrip column_description ≠ "" then
      { d0 with description := some (.str (pyStrip column_description)) }
    else d0
  let d2 :=
    if term_name ≠ "" ∧ term_category ≠ "" then
      match get_term_id glossary_terms term_category term_name with
      | some gid =>
          if gid ≠ "" then
            { d1 with column_terms := some (.arr [.obj
                [("term_display_name", .str term_name), ("term_id", .str gid)]]) }
          else d1
      | none => d1
    else d1
  let d3 :=
    if classification_name ≠ "" ∧ classification_category ≠ "" then
      let ids := get_classification_id classifications classification_category classification_name
      if pyTruthy ids.1 ∧ pyTruthy ids.2 then
        { d2 with column_classifications := some (.arr [.obj
            [("id", .str (ids.1.getD "")), ("global_id", .str (ids.2.getD "")),
             ("name", .str classification_name)]]) }
      else d2
    else d2
  if data_class_name ≠ "" ∧ data_class_category ≠ "" then
    match get_data_class_id data_classes data_class_category data_class_name with
    | some did =>
        if did ≠ "" then
          { d3 with data_class := some (.obj [("selected_data_class", .obj
              [("id", .str did), ("name", .str data_class_name),
               ("setByUser", .bool true)])]) }
        else d3
    | none => d3
  else d3

/-- API calls issued by `updateColumnInfoBulk` (lines 168–251): the probe
GETs followed by the bulk-patch POST carrying the operations. -/
def updateColumnInfoBulk_calls (env : Env) (asset_id column_name : String)
    (cd : ColumnData) : List ApiCall :=
  let ci := checkColumnInfoExists env asset_id
  if ¬ci then
    [.getAsset asset_id,
     .bulkPatch asset_id (updateColumnInfoBulk_ops false false column_name cd)]
  else
    let sc := checkSpecificColumnExists env asset_id column_name
    [.getAsset asset_id, .getAsset asset_id,
     .bulkPatch asset_id (updateColumnInfoBulk_ops true sc column_name cd)]

/-- API calls issued while processing one row of `bulk_assign_project.main`
(lines 377–483): the asset search (whose failure raises and is caught,
ending the row), the column-validation GET (a `False` ends the row), then
— only when at least one facet resolved — the bulk update. -/
def assign_row_calls (env : Env)
    (glossary_terms classifications data_classes : List Artifact)
    (asset_name column_name column_description term_name term_category
     classification_name classification_category data_class_name
     data_class_category : String) : List ApiCall :=
  let tr0 := [ApiCall.searchAssets asset_name]
  if env.assetSearchStatus asset_name ≠ 200 then tr0
  else if env.assetSearchTotal asset_name ≠ 1 then tr0
  else
    let asset_id := env.assetSearchFirstId asset_name
    let tr1 := tr0 ++ [ApiCall.getAsset asset_id]
    if ¬validateColumn env asset_id column_name then tr1
    else
      let cd := buildColumnData glossary_terms classifications data_classes
        column_description term_name term_category classification_name
        classification_category data_class_name data_class_category
      if columnDataNonempty cd then
        tr1 ++ updateColumnInfoBulk_calls env asset_id column_name cd
      else tr1

/-- API calls issued while processing one row of
`bulk_dq_rules.process_dq_rules_csv` (lines 505–625), with the dimension
and definition caches already preloaded as pure lists: dimension miss,
asset-search failure, empty parse, or any invalid column each end the row
with no mutating call; then the definition is fetched or created and the
rule created when a truthy definition id is at hand. -/
def dq_row_calls (env : Env) (dims : List Dimension) (defs : List Definition)
    (rule_name _description dimension_name definition_name _rule_expression
     asset_name fields : String) : List ApiCall :=
  if ¬pyTruthy (get_dimension_id_by_name dims (pyStrip dimension_name)) then []
  else
    let nm := pyStrip asset_name
    let tr0 := [ApiCall.searchAssets nm]
    if env.assetSearchStatus nm ≠ 200 then tr0
    else if env.assetSearchTotal nm < 1 then tr0
    else
      let asset_id := env.assetSearchFirstId nm
      let column_names := parse_bound_expressions (pyStrip fields)
      if column_names = [] then tr0
      else
        let tr1 := tr0 ++ column_names.map (fun _ => ApiCall.getAsset asset_id)
        if (column_names.filter (fun c => ¬validateColumn env asset_id c)) ≠ [] then tr1
        else
          match get_definition_by_name defs (pyStrip definition_name) with
          | some d =>
              if pyTruthy d.id then tr1 ++ [ApiCall.createRule (pyStrip rule_name)]
              else tr1
          | none =>
              let tr2 := tr1 ++ [ApiCall.createDefinition (pyStrip definition_name)]
              if pyTruthy (env.createDefinitionId (pyStrip definition_name)) then
                tr2 ++ [ApiCall.createRule (pyStrip rule_name)]
              else tr2

/-! ## `create_projects`: collaborator partition and batched assignment

Embedding of steps 3–5 of one row of `create_projects.main`
(src/create_projects.py, lines 396–431) together with
`assign_collaborators` (lines 219–283): the validated collaborators are
split against the project's current member list, the already-members are
recorded as skipped, and the new ones go out in a single members POST. -/

structure CollabInfo where
  original_input : String
  username : String
  user_id : String
deriving DecidableEq, Repr

/-- One member entry of the `assign_collaborators` payload:
`(user_name, id, role)`. -/
structure MemberEntry where
  user_name : String
  id : String
  role : String
deriving DecidableEq, Repr

/-- One entry of `result_row['collaborator_results']`. -/
structure CollabResult where
  original_input : String
  username : String
  action : String
  status : String
deriving DecidableEq, Repr

/-- The partition loop (lines 397–405): walk the valid collaborators in
order, the ones not in `current_members` into `new_collaborators`, the
others' usernames into `existing_collaborators`. -/
def partitionCollaborators (valid : List CollabInfo) (current_members : List String) :
    List CollabInfo × List String :=
  List.foldl
    (fun acc ci =>
      if current_members.contains ci.username then (acc.1, acc.2 ++ [ci.username])
      else (acc.1 ++ [ci], acc.2))
    ([], []) valid

/-- Line 412: the first valid collaborator carrying a username, defaulting
to the username itself. -/
def firstOriginalInput (valid : List CollabInfo) (u : String) : String :=
  match List.find? (fun c => c.username = u) valid with
  | some c => c.original_input
  | none => u

/-- The members payload `assign_collaborators` builds (lines 242–248),
with the default role `editor`. -/
def membersPayload (new : List CollabInfo) : List MemberEntry :=
  new.map (fun c => ⟨c.username, c.user_id, "editor"⟩)

/-- Steps 3–5 for one row, given the validated collaborators and current
members: the list of members POSTs issued (one payload each) and the
recorded per-collaborator results. `assign_status` is the textual status
`assign_collaborators` returned for the one batched call. -/
def processCollaborators (valid : List CollabInfo) (current_members : List String)
    (assign_status : String) : List (List MemberEntry) × List CollabResult :=
  let p := partitionCollaborators valid current_members
  let skipped := p.2.map (fun u =>
    (⟨firstOriginalInput valid u, u, "SKIPPED", "Already a member"⟩ : CollabResult))
  if p.1 = [] then ([], skipped)
  else
    ([membersPayload p.1],
     skipped ++ p.1.map (fun c =>
       (⟨c.original_input, c.username, "ASSIGNED", assign_status⟩ : CollabResult)))

/-! ## Output filenames

The filename each job derives for its results CSV. `timestamp` stands for
`datetime.now().strftime("%Y%m%d_%H%M%S")`, a value outside the program.
Note Python's `str.replace` removes every occurrence of `".csv"`, not only
a suffix. -/

/-- src/bulk_assign_project.py lines 326–327. -/
def output_filename_assign (input_filename timestamp : String) : String :=
  pyReplace input_filename ".csv" "" ++ "_out_" ++ timestamp ++ ".csv"

/-- src/bulk_dq_rules.py lines 489–490. -/
def output_filename_dq (input_file timestamp : String) : String :=
  pyReplace input_file ".csv" "" ++ "_out_" ++ timestamp ++ ".csv"

/-- src/create_projects.py lines 289–290. -/
def output_filename_projects (input_filename timestamp : String) : String :=
  pyReplace input_filename ".csv" "" ++ "_out_" ++ timestamp ++ ".csv"

/-- src/create_users.py lines 92–95: strip a final `.csv` and append
`_out.csv` — no timestamp. -/
def output_filename_users (input_filename : String) : String :=
  if pyEndsWith input_filename ".csv" then
    (⟨input_filename.data.take (input_filename.data.length - 4)⟩ : String) ++ "_out.csv"
  else
    input_filename ++ "_out.csv"

/-- Modelled from the spec: §6 names every job's output
`<input-base>_out_<YYYYMMDD_HHMMSS>.csv`; this is that format, with
`<input-base>` read as the input name with its `.csv` suffix removed and
the timestamp as 15 characters `YYYYMMDD_HHMMSS` (digits with an
underscore at index 8). Used only to compare the spec's wording with the
code's filename functions. -/
def specTimestampFormat (ts : String) : Bool :=
  ts.data.length = 15 &&
  (List.range 15).all (fun i =>
    if i = 8 then ts.data.getD i ' ' = '_' else (ts.data.getD i ' ').isDigit)

/-- Modelled from the spec: the `<input-base>` of §6, the input name with
its `.csv` suffix removed. -/
def specInputBase (input : String) : String :=
  if pyEndsWith input ".csv" then
    (⟨input.data.take (input.data.length - 4)⟩ : String)
  else input

/-- Modelled from the spec: `output` matches
`<input-base>_out_<YYYYMMDD_HHMMSS>.csv` for `input`. -/
def specOutputName (input output : String) : Prop :=
  ∃ ts, specTimestampFormat ts = true ∧
    output = specInputBase input ++ "_out_" ++ ts ++ ".csv"

/-! # Theorems -/

/-! ## Shared helper lemmas -/

/-- Dropping a predicate that holds on every element drops everything. -/
theorem dropWhile_eq_nil_of_all {p : Char → Bool} {l : List Char}
    (h : l.all p = true) : l.dropWhile p = [] := by
  induction l with
  | nil => rfl
  | cons c cs ih =>
      simp only [List.all_cons, Bool.and_eq_true] at h
      simp [List.dropWhile, h.1, ih h.2]

/-- Stripping an all-whitespace character list leaves nothing. -/
theorem pyStripList_eq_nil_of_all {l : List Char}
    (h : l.all pyWhitespace = true) : pyStripList l = [] := by
  unfold pyStripList
  rw [dropWhile_eq_nil_of_all h]
  rfl

/-- The underlying character list of a string concatenation. -/
theorem string_data_append (a b : String) : (a ++ b).data = a.data ++ b.data := rfl

/-- C5: Parsing a fields-to-bind expression normalizes the separators
`+`, `|`, `;` into one, so `"colA+colB|colC;colD"` parses to exactly
`["colA", "colB", "colC", "colD"]` in that order, and an empty or
all-whitespace expression parses to the empty list. -/
theorem parse_bound_expressions_spec :
    parse_bound_expressions "colA+colB|colC;colD" = ["colA", "colB", "colC", "colD"] ∧
    ∀ s : String, s.data.all pyWhitespace = true → parse_bound_expressions s = [] := by
  refine ⟨by decide, fun s hs => ?_⟩
  have h1 : pyStrip s = "" := by
    show (⟨pyStripList s.data⟩ : String) = ""
    rw [pyStripList_eq_nil_of_all hs]
  simp [parse_bound_expressions, h1]

/-- Witness for C5 at the empty and an all-whitespace input. -/
theorem parse_bound_expressions_spec_witness :
    parse_bound_expressions "" = [] ∧ parse_bound_expressions " \t " = [] :=
  ⟨parse_bound_expressions_spec.2 "" (by decide),
   parse_bound_expressions_spec.2 " \t " (by decide)⟩

/-- C6: `flatten_record` dot-joins nested mapping keys, unwraps singleton
lists, semicolon-joins longer lists, and turns `None` into the empty
string; in particular the record
`{"a": {"b": 1}, "c": [1], "d": [1,2], "e": None}` flattens to
`{"a.b": "1", "c": "1", "d": "1; 2", "e": ""}`. -/
theorem flatten_record_spec :
    flatten_record (Json.obj [("a", Json.obj [("b", Json.num 1)]),
                              ("c", Json.arr [Json.num 1]),
                              ("d", Json.arr [Json.num 1, Json.num 2]),
                              ("e", Json.null)]) =
      [("a.b", "1"), ("c", "1"), ("d", "1; 2"), ("e", "")] ∧
    (∀ v pfx acc, flattenAux (Json.arr [v]) pfx acc = flattenAux v pfx acc) ∧
    (∀ x y xs pfx acc, flattenAux (Json.arr (x :: y :: xs)) pfx acc =
        dictAssign acc pfx (String.intercalate "; " ((x :: y :: xs).map pyStr))) ∧
    (∀ pfx acc, flattenAux Json.null pfx acc = dictAssign acc pfx "") ∧
    (∀ (k : String) v rest pfx acc, k ≠ "_score" → pfx ≠ "" →
        flattenFields ((k, v) :: rest) pfx acc =
          flattenFields rest pfx (flattenAux v (pfx ++ "." ++ k) acc)) := by
  refine ⟨by decide, fun v pfx acc => rfl, fun x y xs pfx acc => rfl,
    fun pfx acc => rfl, ?_⟩
  intro k v rest pfx acc hk hpfx
  simp [flattenFields, hk, hpfx]

/-- Witness for C6's conditional clause at a concrete field list. -/
theorem flatten_record_spec_witness :
    flattenFields [("k", Json.num 7)] "p" [] =
      flattenFields [] "p" (flattenAux (Json.num 7) ("p" ++ "." ++ "k") []) :=
  flatten_record_spec.2.2.2.2 "k" (Json.num 7) [] "p" [] (by decide) (by decide)

/-- C8: cache lookup for terms / classifications / data classes matches
names only under exact string equality (a record whose stored name differs
from the query, even only in letter case, never matches), while
data-quality dimension lookup matches names case-insensitively (queries
with equal lowerings resolve identically). -/
theorem lookup_case_sensitivity_spec :
    (∀ (l : List Artifact) (nm cat g a : String),
        lookup_by_name_and_category l nm cat = some (g, a) →
        ∃ r ∈ l, artifactName r = nm ∧ artifactCategory r = cat ∧
          g = artifactGlobalId r ∧ a = artifactArtifactId r) ∧
    (∀ (r : Artifact) (nm cat : String), artifactName r ≠ nm →
        lookup_by_name_and_category [r] nm cat = none) ∧
    (∀ (dims : List Dimension) (n1 n2 : String), pyLower n1 = pyLower n2 →
        get_dimension_by_name dims n1 = get_dimension_by_name dims n2) := by
  refine ⟨?_, ?_, ?_⟩
  · intro l nm cat g a h
    induction l with
    | nil => simp [lookup_by_name_and_category] at h
    | cons r rest ih =>
        by_cases hr : artifactName r = nm ∧ artifactCategory r = cat
        · refine ⟨r, List.mem_cons_self r rest, hr.1, hr.2, ?_⟩
          rw [lookup_by_name_and_category, if_pos hr] at h
          exact ⟨(Prod.mk.injEq .. ▸ Option.some.inj h).1.symm,
                 (Prod.mk.injEq .. ▸ Option.some.inj h).2.symm⟩
        · rw [lookup_by_name_and_category, if_neg hr] at h
          obtain ⟨r', hr', hprops⟩ := ih h
          exact ⟨r', List.mem_cons_of_mem r hr', hprops⟩
  · intro r nm cat hne
    have : ¬(artifactName r = nm ∧ artifactCategory r = cat) := fun h => hne h.1
    simp [lookup_by_name_and_category, this]
  · intro dims n1 n2 h
    simp only [get_dimension_by_name, h]

/-- Witness for C8: a term stored as `Email` is not found under `email`,
while a dimension stored as `Completeness` is found under `completeness`
and `COMPLETENESS` alike. -/
theorem lookup_case_sensitivity_spec_witness :
    lookup_by_name_and_category
      [{ name := some "Email", primary_category_name := some "PII" }] "email" "PII" = none ∧
    get_dimension_by_name [{ id := some "d1", name := some "Completeness" }] "completeness" =
      get_dimension_by_name [{ id := some "d1", name := some "Completeness" }] "COMPLETENESS" :=
  ⟨lookup_case_sensitivity_spec.2.1
      { name := some "Email", primary_category_name := some "PII" } "email" "PII" (by decide),
   lookup_case_sensitivity_spec.2.2
      [{ id := some "d1", name := some "Completeness" }] "completeness" "COMPLETENESS" (by decide)⟩

/-- C10: looking a name up for an artifact type whose cache entry was
never populated raises `KeyError` (the `_artifact_cache[artifact_type]`
subscript) rather than returning `None`; the `None` signal only arises
when the type's list is present in the cache. -/
theorem lookup_unloaded_raises_spec (cache : ArtifactCache) (t nm cat : String) :
    (cacheFind cache t = none → lookupInCache cache t nm cat = .keyError) ∧
    (lookupInCache cache t nm cat = .absent → ∃ l, cacheFind cache t = some l) := by
  constructor
  · intro h
    simp [lookupInCache, h]
  · intro h
    unfold lookupInCache at h
    cases hc : cacheFind cache t with
    | none => rw [hc] at h; exact absurd h (by simp)
    | some l => exact ⟨l, rfl⟩

/-- Witness for C10 on a cache holding only glossary terms: a
classification lookup raises, and the `None` case exhibits a populated
entry. -/
theorem lookup_unloaded_raises_spec_witness :
    lookupInCache [("glossary_term", [])] "classification" "X" "C" = .keyError ∧
    ∃ l, cacheFind [("glossary_term", [])] "glossary_term" = some l :=
  ⟨(lookup_unloaded_raises_spec [("glossary_term", [])] "classification" "X" "C").1 (by decide),
   (lookup_unloaded_raises_spec [("glossary_term", [])] "glossary_term" "X" "C").2 (by decide)⟩

/-- C3: the bulk-patch operation shape is decided by the asset's existing
structure. No `column_info`: one add creating the container with the new
column (whatever the second probe would say). `column_info` without the
column: one add creating that column field. Both present: one add per
supplied attribute — membership in the operation list is exactly
suppliedness, every operation is an `add`, and the count is the number of
supplied attributes. -/
theorem updateColumnInfoBulk_ops_spec (column_name : String) (cd : ColumnData) :
    (∀ sc, updateColumnInfoBulk_ops false sc column_name cd =
        [⟨"add", "/entity/column_info", Json.obj [(column_name, columnDataJson cd)]⟩]) ∧
    (updateColumnInfoBulk_ops true false column_name cd =
        [⟨"add", "/entity/column_info/" ++ column_name, columnDataJson cd⟩]) ∧
    (∀ op, op ∈ updateColumnInfoBulk_ops true true column_name cd ↔
        ((∃ d, cd.description = some d ∧
            op = ⟨"add", "/entity/column_info/" ++ column_name ++ "/column_description", d⟩) ∨
         (∃ t, cd.column_terms = some t ∧
            op = ⟨"add", "/entity/column_info/" ++ column_name ++ "/column_terms", t⟩) ∨
         (∃ c, cd.column_classifications = some c ∧
            op = ⟨"add", "/entity/column_info/" ++ column_name ++ "/column_classifications", c⟩) ∨
         (∃ d, cd.data_class = some d ∧
            op = ⟨"add", "/entity/column_info/" ++ column_name ++ "/data_class", d⟩))) ∧
    ((updateColumnInfoBulk_ops true true column_name cd).length =
        (if cd.description.isSome then 1 else 0) +
        (if cd.column_terms.isSome then 1 else 0) +
        (if cd.column_classifications.isSome then 1 else 0) +
        (if cd.data_class.isSome then 1 else 0)) ∧
    (∀ op ∈ updateColumnInfoBulk_ops true true column_name cd, op.op = "add") := by
  refine ⟨fun sc => rfl, rfl, ?_, ?_, ?_⟩
  · intro op
    cases hd : cd.description <;> cases ht : cd.column_terms <;>
      cases hc : cd.column_classifications <;> cases hx : cd.data_class <;>
      simp [updateColumnInfoBulk_ops, hd, ht, hc, hx, Option.toList]
  · cases hd : cd.description <;> cases ht : cd.column_terms <;>
      cases hc : cd.column_classifications <;> cases hx : cd.data_class <;>
      simp [updateColumnInfoBulk_ops, hd, ht, hc, hx, Option.toList]
  · cases hd : cd.description <;> cases ht : cd.column_terms <;>
      cases hc : cd.column_classifications <;> cases hx : cd.data_class <;>
      simp [updateColumnInfoBulk_ops, hd, ht, hc, hx, Option.toList]

/-- Witness for C3: with only a description supplied and both structures
present, the one emitted operation is an `add`. -/
theorem updateColumnInfoBulk_ops_spec_witness :
    (⟨"add", "/entity/column_info/" ++ "c" ++ "/column_description",
        Json.str "d"⟩ : PatchOp).op = "add" :=
  (updateColumnInfoBulk_ops_spec "c" { description := some (Json.str "d") }).2.2.2.2
    ⟨"add", "/entity/column_info/" ++ "c" ++ "/column_description", Json.str "d"⟩
    (by simp [updateColumnInfoBulk_ops, Option.toList])

/-- C9 fails on the code: the user-creation job derives its output name
without any timestamp, so it does not match the spec's
`<input-base>_out_<YYYYMMDD_HHMMSS>.csv` format (the lengths alone
differ by the 16 characters `_<timestamp>`). -/
theorem output_filename_users_not_timestamped :
    output_filename_users "users.csv" = "users_out.csv" ∧
    ¬specOutputName "users.csv" (output_filename_users "users.csv") := by
  refine ⟨by decide, ?_⟩
  rintro ⟨ts, hts, heq⟩
  have hlen : ts.data.length = 15 := by
    simp only [specTimestampFormat, Bool.and_eq_true, decide_eq_true_eq] at hts
    exact hts.1
  have h13 : (output_filename_users "users.csv").data.length = 13 := by decide
  rw [heq] at h13
  simp only [string_data_append, List.length_append, hlen] at h13
  have hbase : (specInputBase "users.csv").data.length = 5 := by decide
  rw [hbase] at h13
  simp at h13

/-- C9 as amended: the column-assignment, data-quality and
project-provisioning jobs name their output
`<input with every ".csv" occurrence removed>_out_<timestamp>.csv`
(shown here on the input `data.csv` for an arbitrary timestamp, together
with the general shape), while the user-creation job names its output
`<input-base>_out.csv` with no timestamp. -/
theorem output_filenames_spec :
    (∀ ts, output_filename_assign "data.csv" ts = "data_out_" ++ ts ++ ".csv") ∧
    (∀ ts, output_filename_dq "data.csv" ts = "data_out_" ++ ts ++ ".csv") ∧
    (∀ ts, output_filename_projects "data.csv" ts = "data_out_" ++ ts ++ ".csv") ∧
    (∀ input ts, output_filename_assign input ts =
        pyReplace input ".csv" "" ++ "_out_" ++ ts ++ ".csv") ∧
    output_filename_users "data.csv" = "data_out.csv" ∧
    (∀ input, pyEndsWith input ".csv" = true →
        output_filename_users input =
          (⟨input.data.take (input.data.length - 4)⟩ : String) ++ "_out.csv") := by
  have key : ∀ ts : String,
      pyReplace "data.csv" ".csv" "" ++ "_out_" ++ ts ++ ".csv" =
        "data_out_" ++ ts ++ ".csv" := by
    intro ts
    have h1 : pyReplace "data.csv" ".csv" "" = "data" := by decide
    rw [h1]
    have h2 : "data" ++ "_out_" = "data_out_" := by decide
    rw [h2]
  refine ⟨fun ts => key ts, fun ts => key ts, fun ts => key ts,
    fun input ts => rfl, by decide, ?_⟩
  intro input h
  simp [output_filename_users, h]

/-- Witness for the amended C9's conditional clause at `report.csv`. -/
theorem output_filenames_spec_witness :
    output_filename_users "report.csv" =
      (⟨("report.csv" : String).data.take (("report.csv" : String).data.length - 4)⟩ : String)
        ++ "_out.csv" :=
  output_filenames_spec.2.2.2.2.2 "report.csv" (by decide)

/-- The lookup scan misses when no record matches. -/
theorem lookup_eq_none_of_no_match {l : List Artifact} {nm cat : String}
    (h : ∀ a ∈ l, ¬(artifactName a = nm ∧ artifactCategory a = cat)) :
    lookup_by_name_and_category l nm cat = none := by
  induction l with
  | nil => rfl
  | cons a rest ih =>
      rw [lookup_by_name_and_category, if_neg (h a (List.mem_cons_self a rest))]
      exact ih (fun b hb => h b (List.mem_cons_of_mem a hb))

/-- The lookup scan returns the identifiers of the record at the least
matching index. -/
theorem lookup_eq_first_match {l : List Artifact} {nm cat : String} {i : Nat}
    (hi : i < l.length)
    (hnm : artifactName (l.get ⟨i, hi⟩) = nm)
    (hcat : artifactCategory (l.get ⟨i, hi⟩) = cat)
    (hfirst : ∀ j (hj : j < l.length), j < i →
        ¬(artifactName (l.get ⟨j, hj⟩) = nm ∧ artifactCategory (l.get ⟨j, hj⟩) = cat)) :
    lookup_by_name_and_category l nm cat =
      some (artifactGlobalId (l.get ⟨i, hi⟩), artifactArtifactId (l.get ⟨i, hi⟩)) := by
  induction l generalizing i with
  | nil => exact absurd hi (Nat.not_lt_zero i)
  | cons a rest ih =>
      cases i with
      | zero =>
          rw [lookup_by_name_and_category, if_pos ⟨hnm, hcat⟩]
          rfl
      | succ n =>
          have ha : ¬(artifactName a = nm ∧ artifactCategory a = cat) :=
            hfirst 0 (Nat.succ_pos _) (Nat.succ_pos n)
          rw [lookup_by_name_and_category, if_neg ha]
          exact ih (Nat.lt_of_succ_lt_succ hi) hnm hcat
            (fun j hj hlt => hfirst (j + 1) (Nat.succ_lt_succ hj) (Nat.succ_lt_succ hlt))

/-- C1: once a type's cache entry is populated, lookup returns the
`(global_id, artifact_id)` identifiers of the first record in fetch order
whose name and primary category both equal the arguments exactly, and the
absence signal when no fetched record matches — in particular, with
duplicates, the first match wins. -/
theorem cache_lookup_spec (cache : ArtifactCache) (t : String) (l : List Artifact)
    (nm cat : String) (hl : cacheFind cache t = some l) :
    ((∀ a ∈ l, ¬(artifactName a = nm ∧ artifactCategory a = cat)) →
        lookupInCache cache t nm cat = .absent) ∧
    (∀ i (hi : i < l.length),
        artifactName (l.get ⟨i, hi⟩) = nm →
        artifactCategory (l.get ⟨i, hi⟩) = cat →
        (∀ j (hj : j < l.length), j < i →
            ¬(artifactName (l.get ⟨j, hj⟩) = nm ∧ artifactCategory (l.get ⟨j, hj⟩) = cat)) →
        lookupInCache cache t nm cat =
          .found (artifactGlobalId (l.get ⟨i, hi⟩)) (artifactArtifactId (l.get ⟨i, hi⟩))) := by
  constructor
  · intro h
    simp only [lookupInCache, hl, lookup_eq_none_of_no_match h]
  · intro i hi hnm hcat hfirst
    simp only [lookupInCache, hl, lookup_eq_first_match hi hnm hcat hfirst]

/-- Witness for C1 on a two-record glossary cache with a duplicate
name/category pair: the first record's identifiers win, and a missing
pair yields the absence signal. -/
theorem cache_lookup_spec_witness :
    lookupInCache
      [("glossary_term",
        [{ name := some "T", primary_category_name := some "C",
           global_id := some "g1", artifact_id := some "a1" },
         { name := some "T", primary_category_name := some "C",
           global_id := some "g2", artifact_id := some "a2" }])]
      "glossary_term" "T" "C" = .found "g1" "a1" ∧
    lookupInCache
      [("glossary_term",
        [{ name := some "T", primary_category_name := some "C",
           global_id := some "g1", artifact_id := some "a1" },
         { name := some "T", primary_category_name := some "C",
           global_id := some "g2", artifact_id := some "a2" }])]
      "glossary_term" "U" "C" = .absent := by
  constructor
  · exact (cache_lookup_spec
      [("glossary_term",
        [{ name := some "T", primary_category_name := some "C",
           global_id := some "g1", artifact_id := some "a1" },
         { name := some "T", primary_category_name := some "C",
           global_id := some "g2", artifact_id := some "a2" }])]
      "glossary_term"
      [{ name := some "T", primary_category_name := some "C",
         global_id := some "g1", artifact_id := some "a1" },
       { name := some "T", primary_category_name := some "C",
         global_id := some "g2", artifact_id := some "a2" }]
      "T" "C" (by decide)).2 0 (by decide)
      (by decide) (by decide) (fun j hj hlt => absurd hlt (Nat.not_lt_zero j))
  · exact (cache_lookup_spec
      [("glossary_term",
        [{ name := some "T", primary_category_name := some "C",
           global_id := some "g1", artifact_id := some "a1" },
         { name := some "T", primary_category_name := some "C",
           global_id := some "g2", artifact_id := some "a2" }])]
      "glossary_term"
      [{ name := some "T", primary_category_name := some "C",
         global_id := some "g1", artifact_id := some "a1" },
       { name := some "T", primary_category_name := some "C",
         global_id := some "g2", artifact_id := some "a2" }]
      "U" "C" (by decide)).1 (by decide)

/-- Reading back a dict entry just assigned. -/
theorem cacheFind_cacheSet (cache : ArtifactCache) (t : String) (l : List Artifact) :
    cacheFind (cacheSet cache t l) t = some l := by
  induction cache with
  | nil => simp [cacheSet, cacheFind, List.find?]
  | cons p rest ih =>
      by_cases h : p.1 = t
      · simp [cacheSet, h, cacheFind, List.find?]
      · simp only [cacheSet, if_neg h]
        simpa [cacheFind, List.find?, h] using ih

/-- C2: a non-success HTTP status on any page stops the paging loop at
once, keeping what was accumulated so far; a load for a type already in
the cache returns immediately with zero network calls and an unchanged
cache (hence also after a fully successful load); any completed load
leaves the type populated; and an uncached load whose first page errors
caches the empty partial result after exactly one call. -/
theorem load_artifacts_spec (server : Nat → SearchPage) :
    (∀ fuel offset acc calls, (server offset).status ≠ 200 →
        loadLoop server (fuel + 1) offset acc calls = some (acc, calls + 1)) ∧
    (∀ fuel cache t res calls, cacheFind cache t = none →
        loadLoop server fuel 0 [] 0 = some (res, calls) →
        load_artifacts server fuel cache t = some (cacheSet cache t res, calls)) ∧
    (∀ fuel cache t newCache calls,
        load_artifacts server fuel cache t = some (newCache, calls) →
        (cacheFind newCache t).isSome = true) ∧
    (∀ fuel cache t l, cacheFind cache t = some l →
        load_artifacts server fuel cache t = some (cache, 0)) ∧
    (∀ fuel cache t, cacheFind cache t = none → (server 0).status ≠ 200 →
        load_artifacts server (fuel + 1) cache t = some (cacheSet cache t [], 1)) := by
  have hstop : ∀ fuel offset acc calls, (server offset).status ≠ 200 →
      loadLoop server (fuel + 1) offset acc calls = some (acc, calls + 1) := by
    intro fuel offset acc calls h
    simp [loadLoop, h]
  have hload : ∀ fuel cache t res calls, cacheFind cache t = none →
      loadLoop server fuel 0 [] 0 = some (res, calls) →
      load_artifacts server fuel cache t = some (cacheSet cache t res, calls) := by
    intro fuel cache t res calls hc hloop
    simp [load_artifacts, hc, hloop]
  refine ⟨hstop, hload, ?_, ?_, ?_⟩
  · intro fuel cache t newCache calls h
    unfold load_artifacts at h
    by_cases hc : (cacheFind cache t).isSome
    · rw [if_pos hc] at h
      cases h
      exact hc
    · rw [if_neg hc] at h
      cases hloop : loadLoop server fuel 0 [] 0 with
      | none => rw [hloop] at h; cases h
      | some r =>
          rw [hloop] at h
          cases h
          simp [cacheFind_cacheSet]
  · intro fuel cache t l hc
    simp [load_artifacts, hc]
  · intro fuel cache t hc herr
    exact hload (fuel + 1) cache t [] 1 hc (hstop fuel 0 [] 0 herr)

/-- Witness for C2: a server that always answers HTTP 500 yields an empty
cached list after one call, and the reload is a no-op. -/
theorem load_artifacts_spec_witness :
    load_artifacts (fun _ => ⟨500, [], 0⟩) 3 [] "glossary_term" =
      some ([("glossary_term", [])], 1) ∧
    load_artifacts (fun _ => ⟨500, [], 0⟩) 3 [("glossary_term", [])] "glossary_term" =
      some ([("glossary_term", [])], 0) := by
  constructor
  · exact (load_artifacts_spec (fun _ => ⟨500, [], 0⟩)).2.2.2.2 2 [] "glossary_term"
      (by decide) (by decide)
  · exact (load_artifacts_spec (fun _ => ⟨500, [], 0⟩)).2.2.2.1 3 [("glossary_term", [])]
      "glossary_term" [] (by decide)

/-- C4: in both jobs a row naming a column that is missing from the
target asset issues no mutating call at all — in the column-assignment
job the one named column failing validation ends the row before the bulk
patch, and in the data-quality job one invalid column among the parsed
list aborts the whole row before the definition create and the rule
create (all-or-nothing). -/
theorem validate_before_mutate_spec (env : Env)
    (glossary_terms classifications data_classes : List Artifact)
    (dims : List Dimension) (defs : List Definition)
    (asset_name column_name column_description term_name term_category
     classification_name classification_category data_class_name data_class_category
     rule_name rule_description dimension_name definition_name rule_expression
     dq_asset_name fields : String) :
    (validateColumn env (env.assetSearchFirstId asset_name) column_name = false →
        ∀ call ∈ assign_row_calls env glossary_terms classifications data_classes
            asset_name column_name column_description term_name term_category
            classification_name classification_category data_class_name
            data_class_category,
          call.isMutating = false) ∧
    (∀ c ∈ parse_bound_expressions (pyStrip fields),
        validateColumn env (env.assetSearchFirstId (pyStrip dq_asset_name)) c = false →
        ∀ call ∈ dq_row_calls env dims defs rule_name rule_description dimension_name
            definition_name rule_expression dq_asset_name fields,
          call.isMutating = false) := by
  constructor
  · intro hv call hc
    simp only [assign_row_calls] at hc
    by_cases h1 : env.assetSearchStatus asset_name ≠ 200
    · rw [if_pos h1] at hc
      simp only [List.mem_singleton] at hc
      subst hc; rfl
    · rw [if_neg h1] at hc
      by_cases h2 : env.assetSearchTotal asset_name ≠ 1
      · rw [if_pos h2] at hc
        simp only [List.mem_singleton] at hc
        subst hc; rfl
      · rw [if_neg h2] at hc
        rw [if_pos (by simp [hv])] at hc
        rcases List.mem_append.mp hc with h | h <;>
          simp only [List.mem_singleton] at h <;> subst h <;> rfl
  · intro c hcparse hv call hc
    simp only [dq_row_calls] at hc
    by_cases h0 : pyTruthy (get_dimension_id_by_name dims (pyStrip dimension_name)) = true
    · rw [if_neg (by simp [h0])] at hc
      by_cases h1 : env.assetSearchStatus (pyStrip dq_asset_name) ≠ 200
      · rw [if_pos h1] at hc
        simp only [List.mem_singleton] at hc
        subst hc; rfl
      · rw [if_neg h1] at hc
        by_cases h2 : env.assetSearchTotal (pyStrip dq_asset_name) < 1
        · rw [if_pos h2] at hc
          simp only [List.mem_singleton] at hc
          subst hc; rfl
        · rw [if_neg h2] at hc
          rw [if_neg (by
            intro h
            rw [h] at hcparse
            exact List.not_mem_nil c hcparse)] at hc
          rw [if_pos (by
            intro h
            have : c ∈ (parse_bound_expressions (pyStrip fields)).filter
                (fun col => ¬validateColumn env
                  (env.assetSearchFirstId (pyStrip dq_asset_name)) col) :=
              List.mem_filter.mpr ⟨hcparse, by simp [hv]⟩
            rw [h] at this
            exact List.not_mem_nil c this)] at hc
          rcases List.mem_append.mp hc with h | h
          · simp only [List.mem_singleton] at h
            subst h; rfl
          · rcases List.mem_map.mp h with ⟨x, _, rfl⟩
            rfl
    · rw [if_pos (by simp [h0])] at hc
      exact absurd hc (List.not_mem_nil call)

/-- Witness for C4: concrete environment whose asset has only a column
`good`; rows naming `bad` issue no mutating call in either job. -/
theorem validate_before_mutate_spec_witness :
    (∀ call ∈ assign_row_calls
        ⟨fun _ => 200, fun _ => 1, fun _ => "aid", fun _ => 200,
         fun _ => some ["good"], fun _ => none, fun _ => none⟩
        [] [] [] "asset1" "bad" "desc" "" "" "" "" "" "",
      call.isMutating = false) ∧
    (∀ call ∈ dq_row_calls
        ⟨fun _ => 200, fun _ => 1, fun _ => "aid", fun _ => 200,
         fun _ => some ["good"], fun _ => none, fun _ => none⟩
        [{ id := some "dim1", name := some "Completeness" }] []
        "rule1" "d" "Completeness" "def1" "expr" "asset1" "good+bad",
      call.isMutating = false) := by
  constructor
  · exact (validate_before_mutate_spec
      ⟨fun _ => 200, fun _ => 1, fun _ => "aid", fun _ => 200,
       fun _ => some ["good"], fun _ => none, fun _ => none⟩
      [] [] [] [{ id := some "dim1", name := some "Completeness" }] []
      "asset1" "bad" "desc" "" "" "" "" "" ""
      "rule1" "d" "Completeness" "def1" "expr" "asset1" "good+bad").1 (by decide)
  · exact (validate_before_mutate_spec
      ⟨fun _ => 200, fun _ => 1, fun _ => "aid", fun _ => 200,
       fun _ => some ["good"], fun _ => none, fun _ => none⟩
      [] [] [] [{ id := some "dim1", name := some "Completeness" }] []
      "asset1" "bad" "desc" "" "" "" "" "" ""
      "rule1" "d" "Completeness" "def1" "expr" "asset1" "good+bad").2 "bad"
      (by decide) (by decide)

/-- The partition loop with an arbitrary accumulator: new collaborators
are the validated ones absent from the member list, in order; the
existing ones contribute their usernames, in order. -/
theorem partitionCollaborators_go (cur : List String) (valid : List CollabInfo)
    (n : List CollabInfo) (e : List String) :
    List.foldl
      (fun acc ci =>
        if cur.contains ci.username then (acc.1, acc.2 ++ [ci.username])
        else (acc.1 ++ [ci], acc.2))
      (n, e) valid =
      (n ++ valid.filter (fun c => !cur.contains c.username),
       e ++ (valid.filter (fun c => cur.contains c.username)).map
          (fun c => c.username)) := by
  induction valid generalizing n e with
  | nil => simp
  | cons c rest ih =>
      rw [List.foldl_cons]
      cases hb : cur.contains c.username with
      | true =>
          rw [if_pos rfl, ih]
          simp only [List.filter_cons]
          simp only [hb, Bool.not_true]
          simp [List.append_assoc]
      | false =>
          rw [if_neg (fun hcontra => Bool.false_ne_true hcontra), ih]
          simp only [List.filter_cons]
          simp only [hb, Bool.not_false]
          simp [List.append_assoc]

/-- `partitionCollaborators` computed in closed form. -/
theorem partitionCollaborators_eq (valid : List CollabInfo) (cur : List String) :
    partitionCollaborators valid cur =
      (valid.filter (fun c => !cur.contains c.username),
       (valid.filter (fun c => cur.contains c.username)).map (fun c => c.username)) := by
  unfold partitionCollaborators
  simpa using partitionCollaborators_go cur valid [] []

/-- C7: per row, the valid collaborators are partitioned against the
current member list; at most one membership-add call goes out (none when
nothing is new), that one call carries exactly the new members' payload,
every already-member is recorded as skipped, and no already-member is
included in the batched call. -/
theorem collaborator_batching_spec (valid : List CollabInfo) (cur : List String)
    (assign_status : String) :
    ((processCollaborators valid cur assign_status).1.length =
        if valid.filter (fun c => !cur.contains c.username) = [] then 0 else 1) ∧
    (∀ members ∈ (processCollaborators valid cur assign_status).1,
        members = membersPayload (valid.filter (fun c => !cur.contains c.username))) ∧
    (∀ c ∈ valid, cur.contains c.username = true →
        (⟨firstOriginalInput valid c.username, c.username, "SKIPPED",
          "Already a member"⟩ : CollabResult) ∈
          (processCollaborators valid cur assign_status).2) ∧
    (∀ c ∈ valid, cur.contains c.username = true →
        ∀ members ∈ (processCollaborators valid cur assign_status).1,
          ∀ m ∈ members, m.user_name ≠ c.username) := by
  have hproc : processCollaborators valid cur assign_status =
      (if valid.filter (fun c => !cur.contains c.username) = [] then []
       else [membersPayload (valid.filter (fun c => !cur.contains c.username))],
       ((valid.filter (fun c => cur.contains c.username)).map (fun c => c.username)).map
          (fun u => (⟨firstOriginalInput valid u, u, "SKIPPED",
            "Already a member"⟩ : CollabResult)) ++
        (if valid.filter (fun c => !cur.contains c.username) = [] then []
         else (valid.filter (fun c => !cur.contains c.username)).map (fun c =>
           (⟨c.original_input, c.username, "ASSIGNED", assign_status⟩ : CollabResult)))) := by
    simp only [processCollaborators, partitionCollaborators_eq]
    by_cases h : valid.filter (fun c => !cur.contains c.username) = []
    · rw [if_pos h, if_pos h, if_pos h]
      simp
    · rw [if_neg h, if_neg h, if_neg h]
  refine ⟨?_, ?_, ?_, ?_⟩
  · rw [hproc]
    by_cases h : valid.filter (fun c => !cur.contains c.username) = []
    · rw [if_pos h, if_pos h, if_pos h]
      rfl
    · rw [if_neg h, if_neg h, if_neg h]
      rfl
  · intro members hm
    rw [hproc] at hm
    by_cases h : valid.filter (fun c => !cur.contains c.username) = []
    · rw [if_pos h] at hm
      exact absurd hm (List.not_mem_nil members)
    · rw [if_neg h] at hm
      simpa using hm
  · intro c hcv hcur
    rw [hproc]
    refine List.mem_append_left _ ?_
    exact List.mem_map.mpr ⟨c.username,
      List.mem_map.mpr ⟨c, List.mem_filter.mpr ⟨hcv, hcur⟩, rfl⟩, rfl⟩
  · intro c hcv hcur members hm m hmm
    rw [hproc] at hm
    by_cases h : valid.filter (fun c => !cur.contains c.username) = []
    · rw [if_pos h] at hm
      exact absurd hm (List.not_mem_nil members)
    · rw [if_neg h] at hm
      simp only [List.mem_singleton] at hm
      subst hm
      rcases List.mem_map.mp hmm with ⟨c', hc', rfl⟩
      have hnc' : (!cur.contains c'.username) = true :=
        (List.mem_filter.mp hc').2
      intro hEq
      have hEq' : c'.username = c.username := hEq
      rw [hEq', hcur] at hnc'
      exact Bool.noConfusion hnc'

/-- Witness for C7: three new collaborators and one already-member give
one batched call with exactly the three, and a skipped record for the
member not in the call. -/
theorem collaborator_batching_spec_witness :
    (processCollaborators
      [⟨"u1@x.com", "u1", "1"⟩, ⟨"u2@x.com", "u2", "2"⟩,
       ⟨"u3@x.com", "u3", "3"⟩, ⟨"u4@x.com", "u4", "4"⟩]
      ["u4", "admin"] "SUCCESS").1.length = 1 ∧
    (⟨"u4@x.com", "u4", "SKIPPED", "Already a member"⟩ : CollabResult) ∈
      (processCollaborators
        [⟨"u1@x.com", "u1", "1"⟩, ⟨"u2@x.com", "u2", "2"⟩,
         ⟨"u3@x.com", "u3", "3"⟩, ⟨"u4@x.com", "u4", "4"⟩]
        ["u4", "admin"] "SUCCESS").2 := by
  constructor
  · have h := (collaborator_batching_spec
      [⟨"u1@x.com", "u1", "1"⟩, ⟨"u2@x.com", "u2", "2"⟩,
       ⟨"u3@x.com", "u3", "3"⟩, ⟨"u4@x.com", "u4", "4"⟩]
      ["u4", "admin"] "SUCCESS").1
    rw [h]
    decide
  · have h := (collaborator_batching_spec
      [⟨"u1@x.com", "u1", "1"⟩, ⟨"u2@x.com", "u2", "2"⟩,
       ⟨"u3@x.com", "u3", "3"⟩, ⟨"u4@x.com", "u4", "4"⟩]
      ["u4", "admin"] "SUCCESS").2.2.1
    have h4 : (⟨"u4@x.com", "u4", "4"⟩ : CollabInfo) ∈
        [(⟨"u1@x.com", "u1", "1"⟩ : CollabInfo), ⟨"u2@x.com", "u2", "2"⟩,
         ⟨"u3@x.com", "u3", "3"⟩, ⟨"u4@x.com", "u4", "4"⟩] := by decide
    simpa [firstOriginalInput] using h ⟨"u4@x.com", "u4", "4"⟩ h4 (by decide)

end BulkGuru
